import Mathlib

/-!
Verification of the authentication subsystem of the Benno-Server repository
(`src/utils/sendEmails.ts`, `UserResolver`): a shallow embedding of the
resolvers `email`, `me`, `register`, `login`, `logout`, `forgotPassword`
and `changePassword`, together with theorems settling the specification
claims about them.

External collaborators (the relational store, the redis key-value store,
the argon2 hasher, the session store, the email transport, the uuid
generator) are modelled explicitly: the stores as in-memory lists threaded
through the operations, nondeterministic outcomes (insert result, email
delivery, session-destroy result, generated token) as parameters, and a
rejected promise as `Except.error`.
-/

namespace Benno

/-- A row of the `User` entity: numeric `id`, `username`, `email`, and the
argon2-hashed `password`. The entity file is not under `src/`; its fields
are those the resolver code reads and writes. -/
structure User where
  id : Nat
  username : String
  email : String
  password : String
deriving DecidableEq, Repr

/-- `FieldError` object type: a validation failure scoped to one input field. -/
structure FieldError where
  field : String
  message : String
deriving DecidableEq, Repr

/-- `UserResponse` object type: optional `user`, optional list of `errors`. -/
structure UserResponse where
  user : Option User := none
  errors : Option (List FieldError) := none
deriving DecidableEq, Repr

/-- One redis entry as written by `redis.set(key, value, "ex", n)`:
the `"ex"` option gives the expiry in SECONDS (ioredis / redis `SET ... EX`). -/
structure RedisEntry where
  key : String
  value : String
  exSeconds : Nat
deriving DecidableEq, Repr

/-- `redis.set(k, v, "ex", ex)`: upsert the key with the given value and
expiry (in seconds). -/
def redisSet (r : List RedisEntry) (k v : String) (ex : Nat) : List RedisEntry :=
  r.filter (fun e => e.key ≠ k) ++ [⟨k, v, ex⟩]

/-- `redis.get(k)`: the stored string, or `none` when the key is absent. -/
def redisGet (r : List RedisEntry) (k : String) : Option String :=
  (r.find? (fun e => e.key = k)).map (fun e => e.value)

/-- `redis.del(k)`: remove the key. -/
def redisDel (r : List RedisEntry) (k : String) : List RedisEntry :=
  r.filter (fun e => e.key ≠ k)

/-- The `exSeconds` field of the entry stored under `k`, when present. -/
def redisTtl (r : List RedisEntry) (k : String) : Option Nat :=
  (r.find? (fun e => e.key = k)).map (fun e => e.exSeconds)

/-- Modelled from the spec: the key namespace prefix for reset tokens,
imported by the resolver from `src/constants.ts`, a file absent from the
repository snapshot. Every use in the resolver is of the form
`forgotPasswordPrefix + token`, so no claim depends on the literal value. -/
def forgotPasswordPrefix : String := "forgot-password:"

/-- `argon2.hash`: external library call, modelled as an injective tagging
of the plaintext (one-way-ness and salting are irrelevant to the claims;
what matters is that `verify` accepts exactly the matching plaintext). -/
def argon2hash (plain : String) : String := "$argon2$" ++ plain

/-- `argon2.verify(digest, plain)`: true iff the digest was produced by
`argon2hash` on an equal plaintext. -/
def argon2verify (digest plain : String) : Bool := digest = argon2hash plain

/-- `User.findOne({ where: { email } })` on the modelled user table. -/
def findOneByEmail (users : List User) (email : String) : Option User :=
  users.find? (fun u => u.email = email)

/-- `User.findOne(id)` on the modelled user table. -/
def findOneById (users : List User) (id : Nat) : Option User :=
  users.find? (fun u => u.id = id)

/-- The mutable state the resolvers touch: the user table, the redis store,
and the inbound request's session's bound `userId` (`none` when unset). -/
structure AppState where
  users : List User
  redis : List RedisEntry
  sessionUserId : Option Nat
deriving DecidableEq, Repr

/-- JavaScript truthiness of `req.session.userId : number | undefined`:
falsy when absent or `0`. -/
def truthyId : Option Nat → Bool
  | none => false
  | some n => n ≠ 0

/-- Field resolver `UserResolver.email`: returns `""` when the session's
`userId` is falsy or the target `user.id` is falsy; returns the stored
email when the session's `userId` strictly equals the target id;
otherwise `""`. -/
def emailResolver (user : User) (sessionUserId : Option Nat) : String :=
  if ¬ truthyId sessionUserId ∨ user.id = 0 then ""
  else if sessionUserId = some user.id then user.email
  else ""

/-- Query `UserResolver.me`: `null` when the session's `userId` is falsy,
otherwise `User.findOne(req.session.userId)`. -/
def me (st : AppState) : Option User :=
  if ¬ truthyId st.sessionUserId then none
  else
    match st.sessionUserId with
    | none => none
    | some uid => findOneById st.users uid

/-- Side effects a mutation performs against the external collaborators,
recorded in program order. -/
inductive Effect
  | hashed
  | insertedUser
  | updatedPassword
  | redisWroteToken
  | redisDeletedToken
  | sessionBound
  | emailSent
deriving DecidableEq, Repr

/-- Outcome of the query-builder `insert ... returning("*")` call: the raw
returned row on success, or the caught error, discriminated the way the
`catch` block does (`error.code === "23505"` with `error.detail` naming the
conflicting column, or anything else). -/
inductive InsertOutcome
  | ok (assignedId : Nat)
  | uniqueViolationUsername
  | uniqueViolationEmail
  | otherError
deriving DecidableEq, Repr

/-- Mutation `UserResolver.register`: validate username length, email
containing `'@'` (`options.email.includes("@")`, a one-character substring
test, modelled as membership in the character list), password length, in
that order, short-circuiting with a single field-scoped error; then hash
the password and insert the row; map insert errors to field-scoped errors;
on success bind the new id into the session and return the created user.
The insert outcome is a parameter (it is decided by the external store). -/
def register (st : AppState) (username email password : String)
    (outcome : InsertOutcome) : UserResponse × AppState × List Effect :=
  if username.length ≤ 2 then
    ({ errors := some [⟨"username", "Username should be at least 3 characters long !"⟩] },
      st, [])
  else if ¬ email.data.contains '@' then
    ({ errors := some [⟨"email", "This is not a valid email !"⟩] }, st, [])
  else if password.length ≤ 2 then
    ({ errors := some [⟨"password", "Password should be at least 3 characters long !"⟩] },
      st, [])
  else
    let hashedPassword := argon2hash password
    match outcome with
    | .ok assignedId =>
        let user : User :=
          { id := assignedId, username := username, email := email,
            password := hashedPassword }
        ({ user := some user },
          { st with users := st.users ++ [user], sessionUserId := some user.id },
          [.hashed, .insertedUser, .sessionBound])
    | .uniqueViolationUsername =>
        ({ errors := some [⟨"username", "An account with this username already exists !"⟩] },
          st, [.hashed, .insertedUser])
    | .uniqueViolationEmail =>
        ({ errors := some [⟨"email", "An account with this email already exists !"⟩] },
          st, [.hashed, .insertedUser])
    | .otherError =>
        ({ errors := some [⟨"username", "An unknown error occured when creating your account !"⟩] },
          st, [.hashed, .insertedUser])

/-- Mutation `UserResolver.login`: look up by email (`none` → field error on
`email`), verify the password (`false` → field error on `password`),
otherwise bind the user's id into the session and return the user. -/
def login (st : AppState) (email password : String) : UserResponse × AppState :=
  match findOneByEmail st.users email with
  | none =>
      ({ errors := some [⟨"email", "This account doesn't exist !"⟩] }, st)
  | some user =>
      if ¬ argon2verify user.password password then
        ({ errors := some [⟨"password", "This password is not valid !"⟩] }, st)
      else
        ({ user := some user }, { st with sessionUserId := some user.id })

/-- State the `logout` mutation touches: whether the server-side session
record is still alive (with its bound `userId`) and whether the client
still holds the session cookie. -/
structure SessionState where
  session : Option (Option Nat)
  cookiePresent : Bool
deriving DecidableEq, Repr

/-- Mutation `UserResolver.logout`: `req.session.destroy` with a callback;
the destroy outcome is a parameter (it is decided by the session store).
On error the promise resolves `false` and nothing else happens; on success
the session is destroyed, `res.clearCookie(cookieName)` clears the cookie,
and the promise resolves `true`. The promise is only ever resolved, never
rejected. -/
def logout (st : SessionState) (destroyOk : Bool) : Bool × SessionState :=
  if destroyOk then
    (true, { session := none, cookiePresent := false })
  else
    (false, st)

/-- `1000 * 60 * 60 * 24 * 3`, the literal computed at
`src/utils/sendEmails.ts:273` and passed as the `"ex"` argument of
`redis.set`. -/
def threeDaysInMilliseconds : Nat := 1000 * 60 * 60 * 24 * 3

/-- Outcome of `await sendEmail(...)`: the transport either delivers or its
promise rejects. -/
inductive EmailOutcome
  | delivered
  | failed
deriving DecidableEq, Repr

/-- Mutation `UserResolver.forgotPassword`: look up by email; absent →
`true` with no writes. Present → store `prefix+token → user.id` in redis
with the `"ex"` option set to `threeDaysInMilliseconds`, then
`await sendEmail(...)` with no surrounding try/catch, so a rejected send
rejects the whole mutation (`Except.error` in the first component); on
delivery return `true`. The state is threaded through every outcome: when
the send rejects, the redis write has already happened and persists.
The generated uuid token and the delivery outcome are parameters. -/
def forgotPassword (st : AppState) (email token : String)
    (outcome : EmailOutcome) : Except Unit Bool × AppState × List Effect :=
  match findOneByEmail st.users email with
  | none => (.ok true, st, [])
  | some user =>
      let st' : AppState :=
        { st with
            redis := redisSet st.redis (forgotPasswordPrefix ++ token)
              (toString user.id) threeDaysInMilliseconds }
      match outcome with
      | .failed => (.error (), st', [.redisWroteToken])
      | .delivered => (.ok true, st', [.redisWroteToken, .emailSent])

/-- `parseInt` on the string read back from redis, as consumed by
`User.findOne(parseInt(userId))`: the leading run of decimal digits is
parsed; with no leading digit the result is `NaN`, for which `findOne`
finds nothing, both modelled as `none`. (Defined over the character list
rather than through `String.toNat?` so it evaluates by kernel
reduction.) -/
def parseIntNat (s : String) : Option Nat :=
  match s.data.takeWhile (fun c => decide ('0' ≤ c) && decide (c ≤ '9')) with
  | [] => none
  | ds => some (ds.foldl (fun n c => n * 10 + (c.toNat - '0'.toNat)) 0)

/-- Mutation `UserResolver.changePassword`: validate the new password
length; read the token's key from redis (`null` or `""` is falsy → "token
expired" error); look up the user by the parsed id (absent → "user doesn't
exist" error); otherwise hash the new password, update the row, delete the
token key, bind the id into the session, and return the (pre-update) user
object. -/
def changePassword (st : AppState) (token newPassword : String) :
    UserResponse × AppState × List Effect :=
  if newPassword.length ≤ 2 then
    ({ errors := some [⟨"newPassword", "Password should be at least 3 characters long !"⟩] },
      st, [])
  else
    let key := forgotPasswordPrefix ++ token
    match redisGet st.redis key with
    | none =>
        ({ errors := some [⟨"newPassword", "The token expired !"⟩] }, st, [])
    | some stored =>
        if stored = "" then
          ({ errors := some [⟨"newPassword", "The token expired !"⟩] }, st, [])
        else
          match (parseIntNat stored).bind (fun n => findOneById st.users n) with
          | none =>
              ({ errors := some [⟨"newPassword", "This user doesn't exist !"⟩] },
                st, [])
          | some user =>
              let hashedPassword := argon2hash newPassword
              let users' := st.users.map
                (fun u => if u.id = user.id then { u with password := hashedPassword } else u)
              ({ user := some user },
                { users := users', redis := redisDel st.redis key,
                  sessionUserId := some user.id },
                [.hashed, .updatedPassword, .redisDeletedToken, .sessionBound])

/-- A concrete user row used to instantiate the theorems. -/
def demoUser : User :=
  { id := 1, username := "ada", email := "ada@mail.com", password := argon2hash "oldpw" }

/-- A concrete state holding exactly `demoUser`, an empty redis store, and an
anonymous session. -/
def demoState : AppState :=
  { users := [demoUser], redis := [], sessionUserId := none }

/-- A concrete state in which a reset token `"tok"` for `demoUser` is stored
in redis (as `forgotPassword` stores it). -/
def demoTokenState : AppState :=
  { users := [demoUser],
    redis := [⟨forgotPasswordPrefix ++ "tok", toString demoUser.id, 259200⟩],
    sessionUserId := none }

/-- A concrete state in which a token `"tok"` is stored for user id `42`,
but no user with id `42` exists. -/
def demoOrphanTokenState : AppState :=
  { users := [demoUser],
    redis := [⟨forgotPasswordPrefix ++ "tok", "42", 259200⟩],
    sessionUserId := none }

/-- C8: `logout` returns `false` when the session-store destroy fails,
leaving the session record and the client-held cookie exactly as they
were; on success it returns `true` with the session destroyed and the
cookie cleared. It is a total function into `Bool × SessionState`
(the promise only resolves; it never rejects). -/
theorem logout_destroy_result (st : SessionState) :
    logout st false = (false, st) ∧
    logout st true = (true, { session := none, cookiePresent := false }) := by
  constructor <;> simp [logout]

/-- C9 counterexample: the claimed equivalence "returns the stored email iff
the session's bound userId equals the target user's id" fails at a target
user with id `0` viewed by a session bound to userId `0`: the ids are
equal, yet the resolver returns `""`, not the stored email. -/
theorem emailResolver_iff_refuted :
    ¬ (∀ (u : User) (v : Option Nat),
        emailResolver u v = u.email ↔ v = some u.id) := by
  intro h
  have h0 := (h (User.mk 0 "ada" "ada@mail.com" "pw") (some 0)).mpr rfl
  simp [emailResolver, truthyId] at h0

/-- C9 amended: the email field resolver returns the stored email exactly
when the session's bound userId equals the target user's id AND that id is
nonzero (JavaScript truthiness of both ids); in every other case it
returns the empty string. -/
theorem emailResolver_characterization (u : User) (v : Option Nat) :
    emailResolver u v = if v = some u.id ∧ u.id ≠ 0 then u.email else "" := by
  rcases v with _ | n
  · simp [emailResolver, truthyId]
  · by_cases hn : n = 0 <;> by_cases hu : u.id = 0 <;> by_cases he : n = u.id <;>
      simp_all [emailResolver, truthyId]

/-- C10: `me` returns `null` when the session's bound userId is absent or
`0` (JavaScript falsiness), and otherwise returns exactly the store lookup
for that id; consequently a session bound to user id `0` is
indistinguishable from an anonymous session at this endpoint. -/
theorem me_falsy_unauthenticated (st : AppState) :
    me st = (match st.sessionUserId with
             | none => none
             | some uid => if uid = 0 then none else findOneById st.users uid) ∧
    me { st with sessionUserId := some 0 } = me { st with sessionUserId := none } := by
  constructor
  · unfold me truthyId
    match st, h : st.sessionUserId with
    | st, none => simp [h]
    | st, some uid =>
        by_cases hu : uid = 0 <;> simp [h, hu]
  · simp [me, truthyId]

/-- C1: evaluating `forgotPassword` at a state containing a user with the
given email shows the token mapping is stored with the `"ex"` (seconds)
argument equal to `1000 * 60 * 60 * 24 * 3 = 259200000` — a milliseconds
value passed where redis expects seconds — and `259200000 ≠ 259200`, so
the stored expiry is not the claimed 3 days (259200 seconds). -/
theorem forgotPassword_ttl_mismatch :
    forgotPassword demoState "ada@mail.com" "tok" EmailOutcome.delivered =
      (Except.ok true,
        { demoState with
            redis := [⟨forgotPasswordPrefix ++ "tok", "1", 259200000⟩] },
        [Effect.redisWroteToken, Effect.emailSent]) ∧
    threeDaysInMilliseconds = 259200000 ∧ (259200000 : Nat) ≠ 259200 := by
  refine ⟨rfl, rfl, by decide⟩

/-- C2 counterexample: at a state containing a user with email
`"ada@mail.com"`, a failing email delivery makes `forgotPassword` reject
(the `await sendEmail` has no surrounding try/catch), so it does not
return `true` for every delivery outcome as the claim states. -/
theorem forgotPassword_delivery_failure_rejects :
    (forgotPassword demoState "ada@mail.com" "tok" EmailOutcome.failed).1 =
      Except.error () := rfl

/-- C2 amended: `forgotPassword` returns `true` immediately (no writes, no
send) when no user has the email, and returns `true` after storing the
token when a user exists and delivery succeeds; but when a user exists and
delivery fails, the delivery failure propagates to the caller as a
rejected mutation rather than returning `true` (the redis write, already
performed, persists). -/
theorem forgotPassword_outcome_characterization (st : AppState)
    (email token : String) :
    (findOneByEmail st.users email = none →
      ∀ outcome, forgotPassword st email token outcome = (.ok true, st, [])) ∧
    (∀ u, findOneByEmail st.users email = some u →
      forgotPassword st email token .delivered =
        (.ok true,
          { st with redis := (redisSet st.redis (forgotPasswordPrefix ++ token)
              (toString u.id) threeDaysInMilliseconds) },
          [.redisWroteToken, .emailSent]) ∧
      forgotPassword st email token .failed =
        (.error (),
          { st with redis := (redisSet st.redis (forgotPasswordPrefix ++ token)
              (toString u.id) threeDaysInMilliseconds) },
          [.redisWroteToken])) := by
  constructor
  · intro h outcome
    simp [forgotPassword, h]
  · intro u h
    constructor <;> simp [forgotPassword, h]

/-- C2 amended, witness: both branches of the characterization at concrete
inputs over `demoState`. -/
theorem forgotPassword_outcome_characterization_witness :
    (∀ outcome, forgotPassword demoState "nobody@mail.com" "tok" outcome =
      (.ok true, demoState, [])) ∧
    (forgotPassword demoState "ada@mail.com" "tok" .failed).1 =
      Except.error () := by
  constructor
  · exact (forgotPassword_outcome_characterization demoState "nobody@mail.com"
      "tok").1 (by decide)
  · rw [((forgotPassword_outcome_characterization demoState "ada@mail.com"
      "tok").2 demoUser (by decide)).2]

/-- C5: `login` discriminates its failure causes: an email with no matching
user yields exactly one field error on `email` (and state untouched, in
particular never a `password` error); an existing user with a
non-verifying password yields exactly one field error on `password`; a
verifying password binds the user's id into the session and returns the
user. -/
theorem login_error_discrimination (st : AppState) (email password : String) :
    (findOneByEmail st.users email = none →
      login st email password =
        ({ errors := some [⟨"email", "This account doesn't exist !"⟩] }, st)) ∧
    (∀ u, findOneByEmail st.users email = some u →
      (argon2verify u.password password = false →
        login st email password =
          ({ errors := some [⟨"password", "This password is not valid !"⟩] }, st)) ∧
      (argon2verify u.password password = true →
        login st email password =
          ({ user := some u }, { st with sessionUserId := some u.id }))) := by
  constructor
  · intro h
    simp [login, h]
  · intro u h
    constructor <;> intro hv <;> simp [login, h, hv]

/-- C5 witness: the three branches at concrete inputs over `demoState`. -/
theorem login_error_discrimination_witness :
    login demoState "nobody@mail.com" "oldpw" =
      ({ errors := some [⟨"email", "This account doesn't exist !"⟩] }, demoState) ∧
    login demoState "ada@mail.com" "wrong" =
      ({ errors := some [⟨"password", "This password is not valid !"⟩] }, demoState) ∧
    login demoState "ada@mail.com" "oldpw" =
      ({ user := some demoUser }, { demoState with sessionUserId := some 1 }) := by
  refine ⟨?_, ?_, ?_⟩
  · exact (login_error_discrimination demoState "nobody@mail.com" "oldpw").1
      (by decide)
  · exact (((login_error_discrimination demoState "ada@mail.com" "wrong").2
      demoUser (by decide)).1 (by decide))
  · exact (((login_error_discrimination demoState "ada@mail.com" "oldpw").2
      demoUser (by decide)).2 (by decide)).trans (by decide)

/-- Deleting a key from the modelled redis store makes a subsequent `get`
of that key return `none`. -/
lemma redisGet_redisDel_self (r : List RedisEntry) (k : String) :
    redisGet (redisDel r k) k = none := by
  have hfind : (List.filter (fun e => decide (e.key ≠ k)) r).find?
      (fun e => decide (e.key = k)) = none := by
    rw [List.find?_eq_none]
    intro x hx
    have hmem := (List.mem_filter.mp hx).2
    simpa using hmem
  simp [redisGet, redisDel, hfind]

/-- C4: `register` checks username length, then email shape, then password
length, in that order, short-circuiting at the first violated rule with
exactly one field error naming that rule's field; the state is unchanged
and no effect (in particular neither hashing nor insert) happens. -/
theorem register_validation_short_circuit (st : AppState) (u e p : String)
    (o : InsertOutcome)
    (h : u.length ≤ 2 ∨ ¬ e.data.contains '@' ∨ p.length ≤ 2) :
    register st u e p o =
      ({ errors := some [
          (if u.length ≤ 2 then
            FieldError.mk "username" "Username should be at least 3 characters long !"
          else if ¬ e.data.contains '@' then
            FieldError.mk "email" "This is not a valid email !"
          else
            FieldError.mk "password" "Password should be at least 3 characters long !")] },
        st, []) := by
  by_cases h1 : u.length ≤ 2
  · simp [register, h1]
  · by_cases h2 : e.data.contains '@'
    · have h3 : p.length ≤ 2 := by tauto
      have h2' : '@' ∈ e.data := by simpa using h2
      simp [register, h1, h2, h2', h3]
    · have h2' : '@' ∉ e.data := by simpa using h2
      simp [register, h1, h2, h2']

/-- C4 witness: the three short-circuit branches at concrete inputs. -/
theorem register_validation_short_circuit_witness :
    register demoState "ab" "x@y" "abc" (InsertOutcome.ok 2) =
      ({ errors := some [⟨"username", "Username should be at least 3 characters long !"⟩] },
        demoState, []) ∧
    register demoState "abc" "nope" "abc" (InsertOutcome.ok 2) =
      ({ errors := some [⟨"email", "This is not a valid email !"⟩] },
        demoState, []) ∧
    register demoState "abc" "x@y" "ab" (InsertOutcome.ok 2) =
      ({ errors := some [⟨"password", "Password should be at least 3 characters long !"⟩] },
        demoState, []) := by
  refine ⟨?_, ?_, ?_⟩
  · exact (register_validation_short_circuit demoState "ab" "x@y" "abc"
      (InsertOutcome.ok 2) (Or.inl (by decide))).trans (by decide)
  · exact (register_validation_short_circuit demoState "abc" "nope" "abc"
      (InsertOutcome.ok 2) (Or.inr (Or.inl (by decide)))).trans (by decide)
  · exact (register_validation_short_circuit demoState "abc" "x@y" "ab"
      (InsertOutcome.ok 2) (Or.inr (Or.inr (by decide)))).trans (by decide)

/-- C6: `changePassword` performs exactly the specified sequence. On the
success path it hashes and persists the new password for the redeemed
user, deletes the token key from redis, binds the user's id into the
session, and returns the user — in that effect order. Each of the three
error cases (short password, missing/falsy token value, vanished user)
returns a single field error on `newPassword` with the state unchanged and
no effects, so the persist step is never reached. -/
theorem changePassword_sequence (st : AppState) (token newPassword : String) :
    (newPassword.length ≤ 2 →
      changePassword st token newPassword =
        ({ errors := some [⟨"newPassword", "Password should be at least 3 characters long !"⟩] },
          st, [])) ∧
    (2 < newPassword.length →
      ((redisGet st.redis (forgotPasswordPrefix ++ token) = none ∨
        redisGet st.redis (forgotPasswordPrefix ++ token) = some "") →
        changePassword st token newPassword =
          ({ errors := some [⟨"newPassword", "The token expired !"⟩] }, st, [])) ∧
      (∀ stored, redisGet st.redis (forgotPasswordPrefix ++ token) = some stored →
        stored ≠ "" →
        ((parseIntNat stored).bind (fun n => findOneById st.users n) = none →
          changePassword st token newPassword =
            ({ errors := some [⟨"newPassword", "This user doesn't exist !"⟩] },
              st, [])) ∧
        (∀ u, (parseIntNat stored).bind (fun n => findOneById st.users n) = some u →
          changePassword st token newPassword =
            ({ user := some u },
              { users := (st.users.map (fun x =>
                  if x.id = u.id then { x with password := argon2hash newPassword } else x)),
                redis := redisDel st.redis (forgotPasswordPrefix ++ token),
                sessionUserId := some u.id },
              [.hashed, .updatedPassword, .redisDeletedToken, .sessionBound])))) := by
  refine ⟨fun h => by simp [changePassword, h], fun hlen => ?_⟩
  have h2 : ¬ newPassword.length ≤ 2 := by omega
  refine ⟨?_, ?_⟩
  · rintro (hg | hg) <;> simp [changePassword, h2, hg]
  · intro stored hg hne
    refine ⟨fun hu => ?_, fun u hu => ?_⟩
    · simp [changePassword, h2, hg, hne, hu]
    · simp [changePassword, h2, hg, hne, hu]

/-- C6 witness: the success path and the three error paths at concrete
inputs. -/
theorem changePassword_sequence_witness :
    changePassword demoTokenState "tok" "newpw" =
      ({ user := some demoUser },
        { users := [{ demoUser with password := argon2hash "newpw" }],
          redis := [], sessionUserId := some 1 },
        [.hashed, .updatedPassword, .redisDeletedToken, .sessionBound]) ∧
    changePassword demoTokenState "tok" "ab" =
      ({ errors := some [⟨"newPassword", "Password should be at least 3 characters long !"⟩] },
        demoTokenState, []) ∧
    changePassword demoTokenState "missing" "newpw" =
      ({ errors := some [⟨"newPassword", "The token expired !"⟩] },
        demoTokenState, []) ∧
    changePassword demoOrphanTokenState "tok" "newpw" =
      ({ errors := some [⟨"newPassword", "This user doesn't exist !"⟩] },
        demoOrphanTokenState, []) := by
  refine ⟨?_, ?_, ?_, ?_⟩
  · exact ((((changePassword_sequence demoTokenState "tok" "newpw").2
      (by decide)).2 "1" (by decide) (by decide)).2 demoUser (by decide)).trans
      (by decide)
  · exact (changePassword_sequence demoTokenState "tok" "ab").1 (by decide)
  · exact (((changePassword_sequence demoTokenState "missing" "newpw").2
      (by decide)).1 (Or.inl (by decide)))
  · exact ((((changePassword_sequence demoOrphanTokenState "tok" "newpw").2
      (by decide)).2 "42" (by decide) (by decide)).1 (by decide))

/-- C3: a stored token redeems exactly once. For a state whose redis store
maps the token's key to a non-empty value that parses to the id of an
existing user, and a new password of length at least 3, the first
`changePassword` returns that user, after which the token's key is gone
from redis, and a second `changePassword` with the same token returns the
"token expired" field error and leaves the state unchanged. -/
theorem changePassword_single_use (st : AppState)
    (token newPassword stored : String) (u : User)
    (hlen : 2 < newPassword.length)
    (hget : redisGet st.redis (forgotPasswordPrefix ++ token) = some stored)
    (hne : stored ≠ "")
    (huser : (parseIntNat stored).bind (fun n => findOneById st.users n) = some u) :
    (changePassword st token newPassword).1 = { user := some u } ∧
    redisGet (changePassword st token newPassword).2.1.redis
      (forgotPasswordPrefix ++ token) = none ∧
    (changePassword (changePassword st token newPassword).2.1 token newPassword).1 =
      { errors := some [⟨"newPassword", "The token expired !"⟩] } ∧
    (changePassword (changePassword st token newPassword).2.1 token newPassword).2.1 =
      (changePassword st token newPassword).2.1 := by
  have h2 : ¬ newPassword.length ≤ 2 := by omega
  have hcp : changePassword st token newPassword =
      ({ user := some u },
        { users := (st.users.map (fun x =>
            if x.id = u.id then { x with password := argon2hash newPassword } else x)),
          redis := redisDel st.redis (forgotPasswordPrefix ++ token),
          sessionUserId := some u.id },
        [.hashed, .updatedPassword, .redisDeletedToken, .sessionBound]) := by
    simp [changePassword, h2, hget, hne, huser]
  refine ⟨by rw [hcp], ?_, ?_, ?_⟩
  · rw [hcp]
    exact redisGet_redisDel_self _ _
  · rw [hcp]
    simp [changePassword, h2, redisGet_redisDel_self]
  · rw [hcp]
    simp [changePassword, h2, redisGet_redisDel_self]

/-- C3 witness: the single-use property at a concrete state holding a token
for `demoUser`. -/
theorem changePassword_single_use_witness :
    (changePassword demoTokenState "tok" "newpw").1 = { user := some demoUser } ∧
    redisGet (changePassword demoTokenState "tok" "newpw").2.1.redis
      (forgotPasswordPrefix ++ "tok") = none ∧
    (changePassword (changePassword demoTokenState "tok" "newpw").2.1
      "tok" "newpw").1 =
      { errors := some [⟨"newPassword", "The token expired !"⟩] } := by
  have h := changePassword_single_use demoTokenState "tok" "newpw" "1" demoUser
    (by decide) (by decide) (by decide) (by decide)
  exact ⟨h.1, h.2.1, h.2.2.1⟩

/-- C7: when the token redeems (redis holds a usable value for its key) but
the user lookup finds nobody, `changePassword` returns the "user doesn't
exist" field error with the state unchanged, and in particular the token
mapping is still present in redis afterwards — redemption alone does not
delete it. -/
theorem changePassword_missing_user_keeps_token (st : AppState)
    (token newPassword stored : String)
    (hlen : 2 < newPassword.length)
    (hget : redisGet st.redis (forgotPasswordPrefix ++ token) = some stored)
    (hne : stored ≠ "")
    (hnouser : (parseIntNat stored).bind (fun n => findOneById st.users n) = none) :
    changePassword st token newPassword =
      ({ errors := some [⟨"newPassword", "This user doesn't exist !"⟩] }, st, []) ∧
    redisGet (changePassword st token newPassword).2.1.redis
      (forgotPasswordPrefix ++ token) = some stored := by
  have h2 : ¬ newPassword.length ≤ 2 := by omega
  have hcp : changePassword st token newPassword =
      ({ errors := some [⟨"newPassword", "This user doesn't exist !"⟩] }, st, []) := by
    simp [changePassword, h2, hget, hne, hnouser]
  refine ⟨hcp, ?_⟩
  rw [hcp]
  exact hget

/-- C7 witness: the orphan-token state keeps its token after the failed
`changePassword`. -/
theorem changePassword_missing_user_keeps_token_witness :
    changePassword demoOrphanTokenState "tok" "newpw" =
      ({ errors := some [⟨"newPassword", "This user doesn't exist !"⟩] },
        demoOrphanTokenState, []) ∧
    redisGet (changePassword demoOrphanTokenState "tok" "newpw").2.1.redis
      (forgotPasswordPrefix ++ "tok") = some "42" := by
  exact changePassword_missing_user_keeps_token demoOrphanTokenState "tok"
    "newpw" "42" (by decide) (by decide) (by decide) (by decide)

end Benno
